import Mathlib

/-!
# Verification of the `tap-applovin` extraction core

Shallow embedding of the extraction core of `tap-applovin`
(`tap_applovin/streams.py` and `tap_applovin/client.py`), together with
theorems settling the specification's claims about it.

Modelling conventions:
* Dates (`datetime` values) are modelled as integers counted in days;
  `timedelta(days=k)` is integer addition.  No claim depends on sub-day
  resolution.
* Python dicts used for URL parameters preserve insertion order and all
  keys inserted by this code are pairwise distinct, so a parameter dict
  is modelled as an association list `List (String × String)` in
  insertion order.
* External collaborators (the HTTP transport, `datetime.now()`,
  `datetime.strptime` success) are explicit inputs: the server is a
  function from the prepared request to a decoded response, the current
  date is a string argument, and whether `strptime` accepted the
  configured `start_date` is a boolean argument.
* Raising an exception is modelled by returning a tagged outcome value;
  log calls that the claims mention are modelled as fields of the
  result.
-/

namespace TapApplovin

/-! ## WindowPlanner: `ReportsStream.date_range` (streams.py:57-83)

The Python generator is

```
current_date = start_date
while current_date < end_date:
    interval_start = current_date
    interval_end = current_date + timedelta(days=interval_in_days)
    if interval_end > end_date:
        interval_end = end_date
    yield interval_start, interval_end
    current_date = interval_end
```

The loop is embedded with explicit fuel so that its (non-)termination can
be discussed: `date_range_loop e k fuel c` returns the list of windows
produced in at most `fuel` iterations together with a flag that is `true`
iff the loop guard `current_date < end_date` still held when the fuel ran
out (i.e. the loop had not yet terminated).
-/

/-- Fuel-indexed unfolding of the `while` loop of `date_range`.
Returns `(windows, unfinished)`. -/
def date_range_loop (e k : ℤ) : ℕ → ℤ → List (ℤ × ℤ) × Bool
  | 0, c => ([], decide (c < e))
  | n + 1, c =>
    if c < e then
      let m := min (c + k) e
      let r := date_range_loop e k n m
      ((c, m) :: r.1, r.2)
    else
      ([], false)

/-- `ReportsStream.date_range start_date end_date interval_in_days`:
the windows produced by the generator.  `(e - s).toNat` iterations always
suffice when `interval_in_days ≥ 1` (proved below), so this is the exact
list the Python generator yields in that case. -/
def date_range (s e k : ℤ) : List (ℤ × ℤ) :=
  (date_range_loop e k (e - s).toNat s).1

/-! ## ResponseClassifier: `ApplovinStream.validate_response` (client.py:58-85)

```
if 400 <= response.status_code < 500:
    error_msg = f"HTTP Error {response.status_code}: {response.text}"
    self.logger.error(error_msg)
    try:
        error_data = response.json()
        self.logger.error(f"API error details: {error_data}")
    except:
        pass
    msg = (f"{response.status_code} Client Error: "
           f"{response.reason} for path: {response.url}")
    raise FatalAPIError(msg)
```

For any other status the method returns `None`, i.e. the response is
treated as valid.  The docstring of the method promises that a
`RetriableAPIError` is raised for retriable errors, but no code path
raises one; the `retriable` constructor below exists only to make that
absence expressible.
-/

/-- Outcome of `validate_response`: `ok` models returning `None`
(response accepted as valid), `fatal` models `raise FatalAPIError(msg)`,
`retriable` models `raise RetriableAPIError` (never produced by this
code). -/
inductive ValidationOutcome where
  | ok : ValidationOutcome
  | fatal (msg : String) : ValidationOutcome
  | retriable (msg : String) : ValidationOutcome
  deriving DecidableEq, Repr

/-- `ApplovinStream.validate_response`.  `jsonDecodeOk` is the verdict of
the external JSON decoder on `response.json()`: the bare
`try/except: pass` absorbs a decode failure, so the returned outcome is
the same either way (only the best-effort log line differs, modelled by
the unused `let` binding). -/
def validate_response (status : ℕ) (reason url : String)
    (jsonDecodeOk : Bool) : ValidationOutcome :=
  if 400 ≤ status ∧ status < 500 then
    let _detailsLogged : Bool := jsonDecodeOk
    ValidationOutcome.fatal
      (toString status ++ " Client Error: " ++ reason ++ " for path: " ++ url)
  else
    ValidationOutcome.ok

/-! ## RequestBuilder: `ReportsStream.get_url_params` (streams.py:85-120)
and `ReportsStream.prepare_request` (streams.py:122-164) -/

/-- The default column list of `ReportsStream` (streams.py:31-55). -/
def reportsColumns : List String :=
  ["day", "campaign", "campaign_id_external", "cost", "country",
   "platform", "impressions", "clicks", "ctr", "conversions",
   "conversion_rate", "sales",
   "ad", "ad_id", "ad_type", "creative_set", "creative_set_id",
   "campaign_type", "campaign_roas_goal", "device_type"]

/-- The `columns` value of the configuration: either a list of strings or
an already comma-joined string (`isinstance(configured_columns, list)`
distinguishes the two), or absent. -/
abbrev ColumnsConfig := Option (List String ⊕ String)

/-- Resolution of the `columns` URL parameter (streams.py:103-113).
Python truthiness: an empty configured list or empty configured string
falls back to the default columns. -/
def columnsParam (cols : ColumnsConfig) (defaultCols : List String) : String :=
  match cols with
  | some (Sum.inl l) =>
      if l = [] then String.intercalate "," defaultCols
      else String.intercalate "," l
  | some (Sum.inr s) =>
      if s = "" then String.intercalate "," defaultCols
      else s
  | none => String.intercalate "," defaultCols

/-- `ReportsStream.get_url_params`.  `apiKey` is `config["api_key"]`
(required by the tap's config schema), `repKey` is
`self.replication_key`, `tok` is `next_page_token`.  Python truthiness
again: a `None` or empty-string token adds no `page` parameter, and a
`None` or empty replication key adds no `sort`/`order_by` parameters. -/
def get_url_params (apiKey : String) (cols : ColumnsConfig)
    (defaultCols : List String) (repKey tok : Option String) :
    List (String × String) :=
  [("api_key", apiKey), ("format", "json"),
   ("columns", columnsParam cols defaultCols)]
  ++ (match tok with
      | some t => if t = "" then [] else [("page", t)]
      | none => [])
  ++ (match repKey with
      | some rk => if rk = "" then [] else [("sort", "asc"), ("order_by", rk)]
      | none => [])

/-- The `end` parameter chosen by `prepare_request` (streams.py:138-143):
`"now"` when the window's end equals the current date (or is already the
sentinel), otherwise the literal end string.  `today` is
`datetime.now().strftime("%Y-%m-%d")` evaluated at call time. -/
def endParam (intervalEnd today : String) : String :=
  if intervalEnd = today ∨ intervalEnd = "now" then "now" else intervalEnd

/-- The full ordered URL-parameter list assembled by
`ReportsStream.prepare_request`: the `get_url_params` dict, then
`params["start"]` and `params["end"]` appended (both keys are fresh, so
dict insertion is an append). -/
def prepare_request_params (apiKey : String) (cols : ColumnsConfig)
    (defaultCols : List String) (repKey tok : Option String)
    (intervalStart intervalEnd today : String) : List (String × String) :=
  get_url_params apiKey cols defaultCols repKey tok
    ++ [("start", intervalStart), ("end", endParam intervalEnd today)]

/-- The immutable request handed to the I/O layer. -/
structure RequestSpec where
  method : String
  url : String
  params : List (String × String)
  headers : List (String × String)
  deriving DecidableEq, Repr

/-- `ReportsStream.prepare_request`: builds the prepared request from the
HTTP method, resolved URL and headers (supplied by the host framework)
and the parameter list above. -/
def prepare_request (method url : String) (headers : List (String × String))
    (apiKey : String) (cols : ColumnsConfig) (defaultCols : List String)
    (repKey tok : Option String) (intervalStart intervalEnd today : String) :
    RequestSpec :=
  { method := method, url := url,
    params := prepare_request_params apiKey cols defaultCols repKey tok
      intervalStart intervalEnd today,
    headers := headers }

/-! ## RecordExtractor and ExtractionEngine:
`ReportsStream.request_records` (streams.py:166-231)

The body of `request_records` computes `interval_start` from the
configuration, hard-codes `interval_end = "now"`, prepares ONE request
with the paginator's initial cursor (`None` for the SDK's JSONPath
paginator), sends it, and iterates the decoded records:

```
try:
    first_record = next(records)
except StopIteration:
    self.logger.info("Pagination stopped after %d pages because no "
                     "records were found in the last response", pages)
    return
yield first_record
yield from records
paginator.advance(resp)
```

There is no loop around the request: after `paginator.advance(resp)` the
function ends, so at most one HTTP request is ever issued per run,
whatever the response's `next_page` token says.  (`ReportsStream` sets
`replication_key = None`, so the engine's requests carry no
`sort`/`order_by` parameters.)
-/

/-- A decoded API response: the record list extracted at
`$.results[*]` and the token at `$.next_page`. -/
structure ApiResponse (α : Type) where
  results : List α
  nextPage : Option String
  deriving DecidableEq, Repr

/-- Observable outcome of one `request_records` run: the prepared
requests actually sent (in order), the records yielded (in order), and
the page count carried by the "Pagination stopped after %d pages" log
line if that line was emitted. -/
structure EngineRun (α : Type) where
  requests : List RequestSpec
  records : List α
  stopLogPages : Option ℕ
  deriving DecidableEq, Repr

/-- `interval_start` resolution (streams.py:177-192): use the configured
`start_date` when present and accepted by `strptime`, otherwise fall
back to `datetime.now() - relativedelta(days=report_range_days or 30)`
formatted as a date; `fallbackStart` is that formatted fallback and
`startDateParses` the external parser's verdict. -/
def resolveIntervalStart (startDate : Option String) (startDateParses : Bool)
    (fallbackStart : String) : String :=
  match startDate with
  | some s => if startDateParses then s else fallbackStart
  | none => fallbackStart

/-- The single request prepared by `request_records`: initial cursor
`none`, `interval_end = "now"`, default columns of `ReportsStream`,
`replication_key = None`. -/
def firstRequest (method url : String) (headers : List (String × String))
    (apiKey : String) (cols : ColumnsConfig) (startDate : Option String)
    (startDateParses : Bool) (fallbackStart today : String) : RequestSpec :=
  prepare_request method url headers apiKey cols reportsColumns none none
    (resolveIntervalStart startDate startDateParses fallbackStart) "now" today

/-- `ReportsStream.request_records`, driven by an abstract HTTP server
`server : RequestSpec → ApiResponse α` (the transport collaborator
composed with `parse_response` / token extraction). -/
def request_records {α : Type} (method url : String)
    (headers : List (String × String)) (apiKey : String)
    (cols : ColumnsConfig) (startDate : Option String)
    (startDateParses : Bool) (fallbackStart today : String)
    (server : RequestSpec → ApiResponse α) : EngineRun α :=
  let req := firstRequest method url headers apiKey cols startDate
    startDateParses fallbackStart today
  match (server req).results with
  | [] => { requests := [req], records := [], stopLogPages := some 1 }
  | r :: rest => { requests := [req], records := r :: rest, stopLogPages := none }

/-! ## Theorems -/

/-- C3: the claim says every response with status ≥ 500 is classified as
Retriable and never treated as a success.  The code violates this: the
overridden `validate_response` handles only the `[400, 500)` band and
returns `None` for everything else, so a 500 response is accepted as
valid (a success) and handed to `parse_response`; no code path raises
`RetriableAPIError`, although the method's own docstring promises it.
This theorem evaluates the classifier at the failing input, HTTP 500. -/
theorem validate_response_500_treated_as_success :
    validate_response 500 "Internal Server Error"
      "https://r.applovin.com/report" true = ValidationOutcome.ok := by
  decide

/-- C4: for every status in `[400, 500)`, `validate_response` raises
`FatalAPIError` carrying the status code and reason string, and the
outcome is the same whether or not the response body JSON-decodes (the
`try/except: pass` absorbs the decode failure): the 4xx is never
silently swallowed. -/
theorem validate_response_4xx_fatal (status : ℕ) (reason url : String)
    (jsonDecodeOk : Bool) (h1 : 400 ≤ status) (h2 : status < 500) :
    validate_response status reason url jsonDecodeOk =
      ValidationOutcome.fatal
        (toString status ++ " Client Error: " ++ reason ++
          " for path: " ++ url) := by
  simp [validate_response, h1, h2]

theorem validate_response_4xx_fatal_witness :
    400 ≤ 404 ∧ 404 < 500 ∧
    validate_response 404 "Not Found" "https://r.applovin.com/report" false =
      ValidationOutcome.fatal
        (toString 404 ++ " Client Error: " ++ "Not Found" ++
          " for path: " ++ "https://r.applovin.com/report") :=
  ⟨by decide, by decide,
    validate_response_4xx_fatal 404 "Not Found"
      "https://r.applovin.com/report" false (by decide) (by decide)⟩

/-- C7: the `end` query parameter (the last parameter inserted by
`prepare_request`) is the literal string `"now"` when the window's end
equals the current date formatted `YYYY-MM-DD` at call time, and the
literal end string otherwise. -/
theorem prepare_request_end_sentinel (apiKey : String) (cols : ColumnsConfig)
    (defaultCols : List String) (repKey tok : Option String)
    (istart iend today : String) :
    (iend = today →
      (prepare_request_params apiKey cols defaultCols repKey tok
        istart iend today).getLast? = some ("end", "now")) ∧
    (iend ≠ today →
      (prepare_request_params apiKey cols defaultCols repKey tok
        istart iend today).getLast? = some ("end", iend)) := by
  have hlast : (prepare_request_params apiKey cols defaultCols repKey tok
      istart iend today).getLast? = some ("end", endParam iend today) := by
    unfold prepare_request_params
    rw [List.getLast?_append_of_ne_nil _ (by simp)]
    rfl
  constructor
  · intro h
    rw [hlast]
    simp [endParam, h]
  · intro h
    rw [hlast]
    by_cases hn : iend = "now"
    · subst hn
      simp [endParam]
    · simp [endParam, h, hn]

theorem prepare_request_end_sentinel_witness :
    (prepare_request_params "k" none reportsColumns none none
      "2026-10-01" "2026-10-12" "2026-10-12").getLast? = some ("end", "now") ∧
    (prepare_request_params "k" none reportsColumns none none
      "2026-10-01" "2026-10-11" "2026-10-12").getLast? =
        some ("end", "2026-10-11") :=
  ⟨(prepare_request_end_sentinel "k" none reportsColumns none none
      "2026-10-01" "2026-10-12" "2026-10-12").1 rfl,
   (prepare_request_end_sentinel "k" none reportsColumns none none
      "2026-10-01" "2026-10-11" "2026-10-12").2 (by decide)⟩

/-- C8 counterexample: the claim fixes the input tuple as (credential,
columns configuration, sort key, cursor, window) only, but
`prepare_request` also reads `datetime.now()`: two invocations with that
tuple identical, made on different dates around the window's end date,
produce different `RequestSpec`s (`end = "now"` vs a literal date). -/
theorem prepare_request_depends_on_call_date :
    decide
      (prepare_request "GET" "https://r.applovin.com/report" [] "key"
          (some (Sum.inr "day")) reportsColumns none none
          "2026-10-10" "2026-10-12" "2026-10-12" =
        prepare_request "GET" "https://r.applovin.com/report" [] "key"
          (some (Sum.inr "day")) reportsColumns none none
          "2026-10-10" "2026-10-12" "2026-10-13")
      = false := by
  decide

/-- C8 as amended: for every fixed tuple of inputs *including the current
date observed at call time*, request preparation is deterministic —
equal inputs give an identical `RequestSpec` — and the query parameters
are inserted in the fixed order `api_key`, `format`, `columns`,
[`page` when the cursor is truthy], [`sort`, `order_by` when a
replication key is set], `start`, `end`. -/
theorem prepare_request_deterministic (method url : String)
    (headers : List (String × String)) (apiKey : String)
    (cols : ColumnsConfig) (defaultCols : List String)
    (repKey tok : Option String) (istart iend today : String) :
    prepare_request method url headers apiKey cols defaultCols repKey tok
        istart iend today =
      prepare_request method url headers apiKey cols defaultCols repKey tok
        istart iend today ∧
    (prepare_request method url headers apiKey cols defaultCols repKey tok
        istart iend today).params.map Prod.fst =
      ["api_key", "format", "columns"]
        ++ (match tok with
            | some t => if t = "" then [] else ["page"]
            | none => [])
        ++ (match repKey with
            | some rk => if rk = "" then [] else ["sort", "order_by"]
            | none => [])
        ++ ["start", "end"] := by
  refine ⟨rfl, ?_⟩
  unfold prepare_request prepare_request_params get_url_params
  rcases tok with _ | t <;> rcases repKey with _ | rk
  · simp
  · by_cases h : rk = "" <;> simp [h]
  · by_cases h : t = "" <;> simp [h]
  · by_cases h1 : t = "" <;> by_cases h2 : rk = "" <;> simp [h1, h2]

/-- Whatever the server answers, `request_records` issues exactly the one
request it prepared before the loop-free body ends. -/
lemma request_records_requests {α : Type} (method url : String)
    (headers : List (String × String)) (apiKey : String)
    (cols : ColumnsConfig) (startDate : Option String)
    (startDateParses : Bool) (fallbackStart today : String)
    (server : RequestSpec → ApiResponse α) :
    (request_records method url headers apiKey cols startDate
        startDateParses fallbackStart today server).requests =
      [firstRequest method url headers apiKey cols startDate
        startDateParses fallbackStart today] := by
  rcases h : (server (firstRequest method url headers apiKey cols startDate
    startDateParses fallbackStart today)).results with _ | ⟨r, rest⟩ <;>
    simp [request_records, h]

/-- The mocked single-window server of end-to-end scenario B: the
first-page request (no `page` parameter) answers 2 records with
`next_page = "2"`; any paged request answers 0 records with
`next_page = "2"` (bug-like repeat). -/
def scenarioBServer : RequestSpec → ApiResponse ℕ := fun req =>
  match req.params.lookup "page" with
  | none => { results := [10, 20], nextPage := some "2" }
  | some _ => { results := [], nextPage := some "2" }

/-- C1: the claim (matching the docstring of `request_records`, which
promises that "pages will be recursed automatically") says that on
scenario B the engine issues a second request with `page = "2"` and logs
that pagination stopped after 2 pages.  The code has no pagination loop:
evaluated on scenario B it issues exactly one request, yields the 2
records of page 1, and emits no pagination-stop log line at all. -/
theorem request_records_never_issues_second_page :
    (request_records "GET" "https://r.applovin.com/report" [] "key" none
        (some "2025-01-01") true "2025-01-01" "2025-01-04"
        scenarioBServer).requests.length = 1 ∧
    (request_records "GET" "https://r.applovin.com/report" [] "key" none
        (some "2025-01-01") true "2025-01-01" "2025-01-04"
        scenarioBServer).records = [10, 20] ∧
    (request_records "GET" "https://r.applovin.com/report" [] "key" none
        (some "2025-01-01") true "2025-01-01" "2025-01-04"
        scenarioBServer).stopLogPages = none := by
  refine ⟨?_, ?_, ?_⟩ <;> rfl

/-- C2 counterexample: for a 3-day requested range
(`start_date = 2026-10-01`, current date `2026-10-04`) the engine does
not perform 3 window-level extraction attempts: it issues a single
request for the whole range (`date_range` is never invoked by
`request_records`). -/
theorem request_records_three_day_range_single_attempt :
    decide
      ((request_records "GET" "https://r.applovin.com/report" [] "key" none
          (some "2026-10-01") true "2026-10-01" "2026-10-04"
          (fun _ => ({ results := [0], nextPage := none } : ApiResponse ℕ))
        ).requests.length = 3)
      = false := by
  decide

/-- C2 as amended: for a requested range of 3 days with
`max_window_days = 1`, the window planner `date_range` would indeed
yield exactly 3 one-day windows in chronological order, but
`request_records` never invokes it: for every configuration and every
server behaviour the engine performs exactly one extraction attempt
(one request) covering the whole range. -/
theorem date_range_unused_single_attempt :
    date_range 0 3 1 = [(0, 1), (1, 2), (2, 3)] ∧
    ∀ {α : Type} (method url : String) (headers : List (String × String))
      (apiKey : String) (cols : ColumnsConfig) (startDate : Option String)
      (startDateParses : Bool) (fallbackStart today : String)
      (server : RequestSpec → ApiResponse α),
      (request_records method url headers apiKey cols startDate
          startDateParses fallbackStart today server).requests.length = 1 := by
  constructor
  · decide
  · intro α method url headers apiKey cols startDate startDateParses
      fallbackStart today server
    rw [request_records_requests]
    rfl

/-- C5: if the very first page of the (single) extraction unit yields
zero records, the engine yields zero records, makes no second request,
returns normally (an empty result, not an error), and logs the page
count reached (1) in the pagination-stop log line. -/
theorem request_records_empty_first_page {α : Type} (method url : String)
    (headers : List (String × String)) (apiKey : String)
    (cols : ColumnsConfig) (startDate : Option String)
    (startDateParses : Bool) (fallbackStart today : String)
    (server : RequestSpec → ApiResponse α)
    (h : (server (firstRequest method url headers apiKey cols startDate
      startDateParses fallbackStart today)).results = []) :
    (request_records method url headers apiKey cols startDate
        startDateParses fallbackStart today server).records = [] ∧
    (request_records method url headers apiKey cols startDate
        startDateParses fallbackStart today server).requests =
      [firstRequest method url headers apiKey cols startDate
        startDateParses fallbackStart today] ∧
    (request_records method url headers apiKey cols startDate
        startDateParses fallbackStart today server).stopLogPages = some 1 := by
  simp [request_records, h]

theorem request_records_empty_first_page_witness :
    (request_records "GET" "https://r.applovin.com/report" [] "key" none
        (some "2026-10-01") true "2026-10-01" "2026-10-04"
        (fun _ => ({ results := [], nextPage := some "2" } : ApiResponse ℕ))
      ).records = [] ∧
    (request_records "GET" "https://r.applovin.com/report" [] "key" none
        (some "2026-10-01") true "2026-10-01" "2026-10-04"
        (fun _ => ({ results := [], nextPage := some "2" } : ApiResponse ℕ))
      ).requests =
      [firstRequest "GET" "https://r.applovin.com/report" [] "key" none
        (some "2026-10-01") true "2026-10-01" "2026-10-04"] ∧
    (request_records "GET" "https://r.applovin.com/report" [] "key" none
        (some "2026-10-01") true "2026-10-01" "2026-10-04"
        (fun _ => ({ results := [], nextPage := some "2" } : ApiResponse ℕ))
      ).stopLogPages = some 1 :=
  request_records_empty_first_page "GET" "https://r.applovin.com/report" []
    "key" none (some "2026-10-01") true "2026-10-01" "2026-10-04"
    (fun _ => ({ results := [], nextPage := some "2" } : ApiResponse ℕ)) rfl

/-- C9: for every configuration (any `start_date`, any fallback derived
from `report_range_days`) and every server behaviour, every request
issued by `request_records` carries the query parameter
`end = "now"` and no other value for `end`: the interval end handed to
`prepare_request` is the hard-coded string `"now"`, so a literal end
date is never sent. -/
theorem request_records_end_always_now {α : Type} (method url : String)
    (headers : List (String × String)) (apiKey : String)
    (cols : ColumnsConfig) (startDate : Option String)
    (startDateParses : Bool) (fallbackStart today : String)
    (server : RequestSpec → ApiResponse α) (req : RequestSpec)
    (hreq : req ∈ (request_records method url headers apiKey cols startDate
      startDateParses fallbackStart today server).requests) :
    ("end", "now") ∈ req.params ∧
    ∀ v, ("end", v) ∈ req.params → v = "now" := by
  rw [request_records_requests, List.mem_singleton] at hreq
  subst hreq
  have hend : endParam "now" today = "now" := by
    simp [endParam]
  constructor
  · unfold firstRequest prepare_request prepare_request_params
    rw [hend]
    simp
  · intro v hv
    unfold firstRequest prepare_request prepare_request_params
      get_url_params at hv
    rw [hend] at hv
    simp at hv
    exact hv

theorem request_records_end_always_now_witness :
    ("end", "now") ∈
      (firstRequest "GET" "https://r.applovin.com/report" [] "key" none
        (some "2026-10-01") true "2026-10-01" "2026-10-04").params ∧
    ∀ v, ("end", v) ∈
      (firstRequest "GET" "https://r.applovin.com/report" [] "key" none
        (some "2026-10-01") true "2026-10-01" "2026-10-04").params →
      v = "now" :=
  request_records_end_always_now "GET" "https://r.applovin.com/report" []
    "key" none (some "2026-10-01") true "2026-10-01" "2026-10-04"
    (fun _ => ({ results := [0], nextPage := none } : ApiResponse ℕ))
    (firstRequest "GET" "https://r.applovin.com/report" [] "key" none
      (some "2026-10-01") true "2026-10-01" "2026-10-04")
    (by rw [request_records_requests]; exact List.mem_singleton_self _)

/-- Master invariant of the `date_range` loop for `interval_in_days ≥ 1`:
with fuel at least `(e - c).toNat` the loop terminates, and the produced
windows are non-empty, of length at most `k`, contiguous, non-overlapping,
ascending, starting at `c`, ending clamped at `e`, and covering exactly
`[c, e)`. -/
lemma date_range_loop_spec (e k : ℤ) (hk : 1 ≤ k) :
    ∀ (fuel : ℕ) (c : ℤ), (e - c).toNat ≤ fuel →
      (date_range_loop e k fuel c).2 = false ∧
      (∀ w ∈ (date_range_loop e k fuel c).1,
        c ≤ w.1 ∧ w.1 < w.2 ∧ w.2 - w.1 ≤ k ∧ w.2 ≤ e) ∧
      (date_range_loop e k fuel c).1.Chain' (fun a b => a.2 = b.1) ∧
      (date_range_loop e k fuel c).1.Pairwise
        (fun a b => a.2 ≤ b.1 ∧ a.1 < b.1) ∧
      (∀ w, (date_range_loop e k fuel c).1.head? = some w → w.1 = c) ∧
      (∀ w, (date_range_loop e k fuel c).1.getLast? = some w → w.2 = e) ∧
      ((date_range_loop e k fuel c).1 = [] ↔ e ≤ c) ∧
      (∀ x : ℤ, (∃ w ∈ (date_range_loop e k fuel c).1, w.1 ≤ x ∧ x < w.2) ↔
        (c ≤ x ∧ x < e)) := by
  intro fuel
  induction fuel with
  | zero =>
    intro c hc
    have hce : ¬ c < e := by omega
    have h0 : date_range_loop e k 0 c = ([], false) := by
      simp [date_range_loop, hce]
    rw [h0]
    refine ⟨rfl, ?_, ?_, ?_, ?_, ?_, ?_, ?_⟩
    · intro w hw
      simp at hw
    · simp
    · simp
    · intro w hw
      simp at hw
    · intro w hw
      simp at hw
    · simp
      omega
    · intro x
      simp
      omega
  | succ n ih =>
    intro c hc
    by_cases hce : c < e
    · have hunfold : date_range_loop e k (n + 1) c =
          ((c, min (c + k) e) :: (date_range_loop e k n (min (c + k) e)).1,
            (date_range_loop e k n (min (c + k) e)).2) := by
        simp [date_range_loop, hce]
      have hm1 : c < min (c + k) e := lt_min (by omega) hce
      have hm2 : min (c + k) e ≤ e := min_le_right _ _
      have hm3 : min (c + k) e ≤ c + k := min_le_left _ _
      have hfuel : (e - min (c + k) e).toNat ≤ n := by omega
      obtain ⟨ihFin, ihAll, ihChain, ihPair, ihHead, ihLast, ihNil, ihCover⟩ :=
        ih (min (c + k) e) hfuel
      rw [hunfold]
      refine ⟨ihFin, ?_, ?_, ?_, ?_, ?_, ?_, ?_⟩
      · intro w hw
        rcases List.mem_cons.mp hw with rfl | hw'
        · exact ⟨le_refl c, hm1, by omega, hm2⟩
        · obtain ⟨h1, h2, h3, h4⟩ := ihAll w hw'
          exact ⟨by omega, h2, h3, h4⟩
      · refine List.chain'_cons'.mpr ⟨?_, ihChain⟩
        intro y hy
        exact (ihHead y hy).symm
      · refine List.pairwise_cons.mpr ⟨?_, ihPair⟩
        intro b hb
        have hb1 := (ihAll b hb).1
        exact ⟨hb1, by omega⟩
      · intro w hw
        simp only [List.head?_cons, Option.some.injEq] at hw
        rw [← hw]
      · intro w hw
        rcases hws : (date_range_loop e k n (min (c + k) e)).1 with _ | ⟨b, bs⟩
        · rw [hws] at hw
          simp only [List.getLast?_singleton, Option.some.injEq] at hw
          have : e ≤ min (c + k) e := (ihNil).mp hws
          rw [← hw]
          simp only []
          omega
        · rw [hws] at hw
          rw [List.getLast?_cons_cons] at hw
          rw [← hws] at hw
          exact ihLast w hw
      · simp only [List.cons_ne_nil, false_iff]
        omega
      · intro x
        constructor
        · rintro ⟨w, hw, hx1, hx2⟩
          rcases List.mem_cons.mp hw with rfl | hw'
          · simp only [] at hx1 hx2
            constructor
            · exact hx1
            · omega
          · have := (ihCover x).mp ⟨w, hw', hx1, hx2⟩
            exact ⟨by omega, this.2⟩
        · rintro ⟨hx1, hx2⟩
          by_cases hxm : x < min (c + k) e
          · exact ⟨(c, min (c + k) e), List.mem_cons_self _ _, hx1, hxm⟩
          · obtain ⟨w, hw, hw1, hw2⟩ := (ihCover x).mpr ⟨by omega, hx2⟩
            exact ⟨w, List.mem_cons_of_mem _ hw, hw1, hw2⟩
    · have h0 : date_range_loop e k (n + 1) c = ([], false) := by
        simp [date_range_loop, hce]
      rw [h0]
      refine ⟨rfl, ?_, ?_, ?_, ?_, ?_, ?_, ?_⟩
      · intro w hw
        simp at hw
      · simp
      · simp
      · intro w hw
        simp at hw
      · intro w hw
        simp at hw
      · simp
        omega
      · intro x
        simp
        omega

/-- C6: for `interval_in_days ≥ 1` the windows of `date_range` are
contiguous (each window's end is the next window's start),
non-overlapping and ordered ascending, every window is non-empty of
length at most `max_window_days`, their union is exactly `[start, end)`,
the first window starts at `start`, the final window's end is clamped to
`end`, and the window list is empty exactly when `start ≥ end`. -/
theorem date_range_windows (s e k : ℤ) (hk : 1 ≤ k) :
    (date_range s e k).Chain' (fun a b => a.2 = b.1) ∧
    (date_range s e k).Pairwise (fun a b => a.2 ≤ b.1 ∧ a.1 < b.1) ∧
    (∀ w ∈ date_range s e k, w.1 < w.2 ∧ w.2 - w.1 ≤ k) ∧
    (∀ x : ℤ, (∃ w ∈ date_range s e k, w.1 ≤ x ∧ x < w.2) ↔
      (s ≤ x ∧ x < e)) ∧
    (∀ w, (date_range s e k).head? = some w → w.1 = s) ∧
    (∀ w, (date_range s e k).getLast? = some w → w.2 = e) ∧
    (date_range s e k = [] ↔ e ≤ s) := by
  obtain ⟨-, hAll, hChain, hPair, hHead, hLast, hNil, hCover⟩ :=
    date_range_loop_spec e k hk (e - s).toNat s le_rfl
  exact ⟨hChain, hPair,
    fun w hw => ⟨(hAll w hw).2.1, (hAll w hw).2.2.1⟩,
    hCover, hHead, hLast, hNil⟩

theorem date_range_windows_witness :
    1 ≤ (2 : ℤ) ∧ (date_range 0 3 2).Chain' (fun a b => a.2 = b.1) :=
  ⟨by decide, (date_range_windows 0 3 2 (by decide)).1⟩

/-- C10: for `start < end` and `interval_in_days ≥ 1` the `date_range`
loop terminates — the loop guard is already false after at most
`(end - start).toNat` iterations, so finitely many windows are yielded —
and the precondition is necessary: for `interval_in_days = 0` with
`start < end`, after any number `n` of iterations the guard still holds
and the generator has yielded `n` zero-length windows `(start, start)`,
i.e. it yields zero-length windows forever and never terminates. -/
theorem date_range_termination (s e k : ℤ) :
    (1 ≤ k → s < e → (date_range_loop e k (e - s).toNat s).2 = false) ∧
    (k = 0 → s < e → ∀ n : ℕ,
      (date_range_loop e k n s).2 = true ∧
      (date_range_loop e k n s).1 = List.replicate n (s, s)) := by
  constructor
  · intro hk _
    exact (date_range_loop_spec e k hk (e - s).toNat s le_rfl).1
  · rintro rfl hse n
    induction n with
    | zero =>
      refine ⟨?_, rfl⟩
      simp [date_range_loop, hse]
    | succ n ih =>
      have hm : min (s + 0) e = s := by
        rw [add_zero]
        exact min_eq_left (le_of_lt hse)
      have hstep : date_range_loop e 0 (n + 1) s =
          ((s, s) :: (date_range_loop e 0 n s).1,
            (date_range_loop e 0 n s).2) := by
        simp only [date_range_loop, hm, if_pos hse]
      rw [hstep]
      refine ⟨ih.1, ?_⟩
      rw [List.replicate_succ, ih.2]

theorem date_range_termination_witness :
    (date_range_loop 3 1 ((3 : ℤ) - 0).toNat 0).2 = false ∧
    ((date_range_loop 3 0 5 0).2 = true ∧
      (date_range_loop 3 0 5 0).1 = List.replicate 5 (0, 0)) :=
  ⟨(date_range_termination 0 3 1).1 (by decide) (by decide),
   (date_range_termination 0 3 0).2 rfl (by decide) 5⟩

end TapApplovin
